import Mathlib

/-!
Verification of the diagnostic rule engine of the `mental-instability-bot`
repository (`src/log_checking/checks.rs`).

The rule catalogue, the individual rules, the severity model and the
aggregator are translated directly from `src/log_checking/checks.rs`.
The repository's `grab!` / `grab_all!` macros (`src/macros.rs`) and the
`EnvironmentContext` / `Launcher` types (`src/log_checking/environment.rs`)
are not part of the provided sources; they are modelled from the
specification (sections 3 and 4.1): an ordered list of alternative regular
expressions is tried in declared order against the full log text and the
first match's positional capture groups are returned.

Rust panics (`Option::expect` on a missing capture group) are modelled by
the `Except String` monad: `Except.error msg` is a panic carrying the panic
message, and a panic raised inside one rule aborts the whole aggregation,
exactly as a Rust panic unwinds out of `check_checks`.

The regular expressions of the catalogue only use literal characters, the
classes `.` (any character except a line feed), `\S` (non-whitespace),
`\w` (word character), `[0-9]`, the greedy repetition `X+` of a single
class, and positional capture groups of the shape `(X+)`.  The embedded
matcher implements exactly these constructs with the leftmost-first,
greedy-with-backtracking semantics of the `regex` crate, restricted to the
ASCII definitions of the character classes (all log signatures involved are
ASCII).
-/

/-- Modelled from the spec: a single-character matcher, the atoms of the
catalogue's regular expressions. `dot` is `.` (anything but a line feed),
`nonspace` is `\S`, `wordchar` is `\w`, `digit` is `[0-9]`. -/
inductive RAtom
  | dot
  | nonspace
  | wordchar
  | digit
deriving DecidableEq

/-- Modelled from the spec: one item of a regular expression. `ch c` is the
literal character `c`, `plus a` is the greedy repetition `a+`, and
`group i a` is the positional capture group number `i` of the shape
`(a+)` (every capture group of the catalogue has this shape). -/
inductive RItem
  | ch (c : Char)
  | plus (a : RAtom)
  | group (i : Nat) (a : RAtom)
deriving DecidableEq

/-- Whitespace in the sense of the `regex` crate's `\s`, restricted to the
ASCII range. -/
def isSpaceCh (c : Char) : Bool :=
  c == ' ' || c == '\t' || c == '\n' || c == '\r' || c == '\x0b' || c == '\x0c'

/-- Does the atom match one character? -/
def atomMatch : RAtom → Char → Bool
  | RAtom.dot, c => c != '\n'
  | RAtom.nonspace, c => !(isSpaceCh c)
  | RAtom.wordchar, c => c.isAlphanum || c == '_'
  | RAtom.digit, c => c.isDigit

/-- Positional capture groups of one match: an association list from the
group index to the captured characters. -/
abbrev Caps := List (Nat × List Char)

/-- Lookup of a positional capture group, `Captures::get` of the `regex`
crate restricted to the groups that participated in the match. -/
def capGet : Caps → Nat → Option (List Char)
  | [], _ => none
  | (j, v) :: rest, i => if i = j then some v else capGet rest i

/-- First successful application of `f` along a list, the first-match-wins
combinator used both for greedy backtracking and for the ordered list of
alternative patterns of one rule. -/
def firstSome (f : α → Option β) : List α → Option β
  | [] => none
  | a :: l =>
    match f a with
    | some b => some b
    | none => firstSome f l

/-- Candidate lengths for a greedy `a+`: the length of the maximal run of
`a`-matching characters at the front of `s`, down to `1`.  Longest first
gives the greedy preference order of the `regex` crate. -/
def runLens (a : RAtom) (s : List Char) : List Nat :=
  (List.range (s.takeWhile (atomMatch a)).length).map
    (fun j => (s.takeWhile (atomMatch a)).length - j)

/-- Modelled from the spec: match a regular expression (a list of items)
against the front of `s`, returning the capture groups of the first match
in the backtracking preference order (greedy repetitions try longer runs
first). -/
def matchItems : List RItem → List Char → Option Caps
  | [], _ => some []
  | RItem.ch _ :: _, [] => none
  | RItem.ch c :: ps, x :: s => if x = c then matchItems ps s else none
  | RItem.plus a :: ps, s =>
    firstSome (fun k => matchItems ps (s.drop k)) (runLens a s)
  | RItem.group i a :: ps, s =>
    firstSome
      (fun k => (matchItems ps (s.drop k)).map (fun caps => (i, s.take k) :: caps))
      (runLens a s)

/-- Modelled from the spec: unanchored search, `Regex::captures`.  Start
positions are tried from the left, so the leftmost match wins. -/
def searchPat (p : List RItem) : List Char → Option Caps
  | [] => matchItems p []
  | c :: rest =>
    match matchItems p (c :: rest) with
    | some caps => some caps
    | none => searchPat p rest

/-- Modelled from the spec: the `grab_all!` macro of `src/macros.rs` (not in
the provided sources).  The alternative patterns of one rule are tried in
declared order against the full log text; the first match's capture groups
are returned, or `none` when no pattern matches. -/
def grab_all (log : String) (pats : List (List RItem)) : Option Caps :=
  firstSome (fun p => searchPat p log.data) pats

/-- Modelled from the spec: the `grab!` macro of `src/macros.rs` (not in the
provided sources).  Like `grab_all!`, but projects the first match onto its
capture group `1` (which may be absent when the pattern declares no
group). -/
def grab (log : String) (pats : List (List RItem)) : Option (Option (List Char)) :=
  (grab_all log pats).map (fun caps => capGet caps 1)

/-- Literal part of a pattern: one item per character. -/
def lits (s : String) : List RItem := s.data.map RItem.ch

/-- Severity of a finding, from `checks.rs`. -/
inductive Severity
  | None
  | Medium
  | High
deriving DecidableEq

/-- Presentation color of a severity, `Severity::get_color` from
`checks.rs`. -/
def Severity.get_color : Severity → Nat
  | Severity.None => 0x00219ebc
  | Severity.Medium => 0x00f77f00
  | Severity.High => 0x00d62828

/-- One finding, `CheckReport` from `checks.rs`. -/
structure CheckReport where
  title : String
  description : String
  severity : Severity
deriving DecidableEq

/-- Modelled from the spec: launcher identities recognized by the
environment-context builder (`src/log_checking/environment.rs`, not in the
provided sources).  The rules only consult the `PolyMC` variant; all other
recognized identities are collapsed into one variant. -/
inductive Launcher
  | PolyMC
  | OtherRecognized
deriving DecidableEq

/-- Modelled from the spec: a lowercase mod identifier, the key type of the
known-mods mapping.  The Rust code reaches the inner string as `m.0 .0`. -/
structure ModId where
  id : String
deriving DecidableEq

/-- Modelled from the spec: mod metadata is opaque to the core (rules only
test membership by identifier). -/
abbrev ModMetadata := Unit

/-- Modelled from the spec: the read-only environment context handed to
every rule (`src/log_checking/environment.rs`, not in the provided
sources): the detected launcher (`none` is "unknown") and the mapping from
known-mod identifier to metadata. -/
structure EnvironmentContext where
  launcher : Option Launcher
  known_mods : List (ModId × ModMetadata)
deriving DecidableEq

instance {ε α} [DecidableEq ε] [DecidableEq α] : DecidableEq (Except ε α) :=
  fun a b =>
    match a, b with
    | Except.ok x, Except.ok y =>
      if h : x = y then Decidable.isTrue (congrArg Except.ok h)
      else Decidable.isFalse (fun hh => h (Except.ok.inj hh))
    | Except.error x, Except.error y =>
      if h : x = y then Decidable.isTrue (congrArg Except.error h)
      else Decidable.isFalse (fun hh => h (Except.error.inj hh))
    | Except.ok _, Except.error _ => Decidable.isFalse (fun hh => Except.noConfusion hh)
    | Except.error _, Except.ok _ => Decidable.isFalse (fun hh => Except.noConfusion hh)

/-- Pattern of `crash_report_analysis`. -/
def crashReportPat : List RItem :=
  lits ("---- Minecraft Crash Report ----\n// ") ++ [RItem.plus RAtom.dot] ++
  lits ("\n\nTime: ") ++ [RItem.plus RAtom.dot] ++ lits ("\nDescription: ") ++
  [RItem.group 1 RAtom.dot] ++ lits ("\n\n") ++ [RItem.group 2 RAtom.dot] ++ lits ("\n")

/-- First alternative of `dependency_generic` (ranged-version requirement). -/
def depPat1 : List RItem :=
  lits ("Mod '") ++ [RItem.group 1 RAtom.dot] ++ lits ("' (") ++
  [RItem.plus RAtom.nonspace] ++ lits (") ") ++ [RItem.plus RAtom.nonspace] ++
  lits (" requires any version between ") ++ [RItem.plus RAtom.nonspace] ++
  lits (" and ") ++ [RItem.plus RAtom.nonspace] ++ lits (" of ") ++
  [RItem.group 2 RAtom.dot] ++ lits (", which is missing!")

/-- Second alternative of `dependency_generic` (minimum-version requirement). -/
def depPat2 : List RItem :=
  lits ("Mod '") ++ [RItem.group 1 RAtom.dot] ++ lits ("' (") ++
  [RItem.plus RAtom.nonspace] ++ lits (") ") ++ [RItem.plus RAtom.nonspace] ++
  lits (" requires version ") ++ [RItem.plus RAtom.nonspace] ++
  lits (" or later of ") ++ [RItem.group 2 RAtom.dot] ++ lits (", which is missing!")

/-- Third alternative of `dependency_generic` (any-version requirement). -/
def depPat3 : List RItem :=
  lits ("Mod '") ++ [RItem.group 1 RAtom.dot] ++ lits ("' (") ++
  [RItem.plus RAtom.nonspace] ++ lits (") ") ++ [RItem.plus RAtom.nonspace] ++
  lits (" requires any version of ") ++ [RItem.group 2 RAtom.dot] ++
  lits (", which is missing!")

/-- First alternative of the first sub-check of `crash_generic`
(injection failure). -/
def cgPat1 : List RItem :=
  lits ("InvalidInjectionException: Critical injection failure: @Inject annotation on ") ++
  [RItem.plus RAtom.nonspace] ++ lits (" could not find any targets matching '") ++
  [RItem.plus RAtom.dot] ++ lits ("' in ") ++ [RItem.plus RAtom.nonspace] ++
  lits (". Using refmap ") ++ [RItem.plus RAtom.nonspace] ++
  lits (" [PREINJECT Applicator Phase -> ") ++ [RItem.plus RAtom.nonspace] ++
  lits (":") ++ [RItem.group 1 RAtom.wordchar] ++ lits (" from mod ") ++
  [RItem.group 2 RAtom.wordchar]

/-- Second alternative of the first sub-check of `crash_generic`
(accessor failure). -/
def cgPat2 : List RItem :=
  lits ("InvalidAccessorException: No candidates were found matching ") ++
  [RItem.plus RAtom.nonspace] ++ lits (" in ") ++ [RItem.plus RAtom.nonspace] ++
  lits (" for ") ++ [RItem.plus RAtom.nonspace] ++ lits (":") ++
  [RItem.group 1 RAtom.wordchar] ++ lits (" from mod ") ++
  [RItem.group 2 RAtom.wordchar]

/-- Pattern of the second sub-check of `crash_generic` (mixin apply error). -/
def cgPat3 : List RItem :=
  lits ("MixinApplyError: Mixin [") ++ [RItem.plus RAtom.nonspace] ++
  lits (".mixins.json:") ++ [RItem.plus RAtom.nonspace] ++ lits (" from mod ") ++
  [RItem.group 1 RAtom.nonspace] ++ lits ("] from phase [") ++
  [RItem.plus RAtom.nonspace] ++ lits ("] in config [") ++
  [RItem.plus RAtom.nonspace] ++ lits (".mixins.json] FAILED during ") ++
  [RItem.plus RAtom.nonspace]

/-- Pattern of the third sub-check of `crash_generic` (entrypoint error). -/
def cgPat4 : List RItem :=
  lits ("RuntimeException: Could not execute entrypoint stage '") ++
  [RItem.plus RAtom.nonspace] ++ lits ("' due to errors, provided by '") ++
  [RItem.group 1 RAtom.nonspace] ++ lits ("'!")

/-- First pattern of `java` (launcher replace-suggestion wording). -/
def javaPat1 : List RItem :=
  lits ("- Replace '") ++ [RItem.plus RAtom.dot] ++ lits ("' (java) ") ++
  [RItem.group 1 RAtom.digit] ++ lits (" with version ") ++
  [RItem.group 2 RAtom.digit] ++ lits (" or later.")

/-- Second pattern of `java` (`UnsupportedClassVersionError` wording). -/
def javaPat2 : List RItem :=
  lits ("UnsupportedClassVersionError: ") ++ [RItem.plus RAtom.nonspace] ++
  lits (" has been compiled by a more recent version of the Java Runtime (class file version ") ++
  [RItem.group 1 RAtom.nonspace] ++
  lits ("), this version of the Java Runtime only recognizes class file versions up to ") ++
  [RItem.group 2 RAtom.nonspace]

/-- Pattern of `missing_field`. -/
def mfPat : List RItem := lits ("java.lang.NoSuchFieldError")

/-- First pattern of `optifabric` (incompatibility wording). -/
def optiPat1 : List RItem :=
  lits ("Mod '") ++ [RItem.plus RAtom.dot] ++ lits ("' (") ++
  [RItem.plus RAtom.nonspace] ++ lits (") ") ++ [RItem.plus RAtom.nonspace] ++
  lits (" is incompatible with any version of mod '") ++ [RItem.plus RAtom.dot] ++
  lits ("' (optifabric)")

/-- Second pattern of `optifabric` (package name). -/
def optiPat2 : List RItem := lits ("me.modmuss50.optifabric")

/-- Pattern of `indium`. -/
def indiumPat : List RItem :=
  lits ("because the return value of \"net.fabricmc.fabric.api.renderer.v1.RendererAccess.getRenderer()\" is null")

/-- Description built by `crash_report_analysis`. -/
def crashReportDesc (description error : List Char) : String :=
  "Context: `" ++ String.mk description ++ "`\n```\n" ++ String.mk error ++ "\n```"

/-- Description built by `dependency_generic`. -/
def depDesc (dependent dependency : List Char) : String :=
  "The `" ++ String.mk dependent ++ "` mod needs `" ++ String.mk dependency ++
  "` to be installed, but it is missing."

/-- Description built by the first sub-check of `crash_generic`. -/
def mixinInjectDesc (mixin mod_id : List Char) : String :=
  "Mixin `" ++ String.mk mixin ++ "` from mod `" ++ String.mk mod_id ++
  "` has failed. It is possible that `" ++ String.mk mod_id ++
  "` is not compatible with this Minecraft version, consider double-checking its version."

/-- Description built by the second sub-check of `crash_generic`. -/
def mixinErrorDesc (mod_id : List Char) : String :=
  "The mod `" ++ String.mk mod_id ++
  "` has encountered a mixin error, this may be caused by a mismatch in Minecraft version or a mod incompatibility. Further investigation is required."

/-- Description built by the third sub-check of `crash_generic`. -/
def entrypointDesc (mod_id : List Char) : String :=
  "The mod `" ++ String.mk mod_id ++
  "` has encountered an error in it's entrypoint, though it may not have caused it. Further investigation is required."

/-- Version-specific description built by `java`. -/
def javaVersionDesc (need has : String) : String :=
  "A mod or Minecraft itself requires Java " ++ need ++
  " to be used, but an older version, Java " ++ has ++
  " is being used instead. You may have to [download](https://adoptium.net/temurin/releases/?version=" ++
  need ++ ") a newer Java version and/or select it in your launcher."

/-- Generic (non-numeric) description built by `java` when a class-file
version is outside the translation table. -/
def javaGenericDesc : String :=
  "A mod or Minecraft itself requires a different version of Java from the one that is available. You may have to [download](https://adoptium.net/temurin/releases/) a newer Java version and/or select it in your launcher."

/-- Description of the `missing_field` report. -/
def missingFieldDesc : String :=
  "On the logical server some fields may be deleted by Fabric Loader when a mod defines them as client-only. Since this feature was broken before loader `0.15`, some mods may have implemented it incorrectly. See if there's an update for the mod in question, or try downgrading Fabric Loader."

/-- Description of the `polymc` report. -/
def polymcDesc : String :=
  "PolyMC is an outdated launcher maintained by a queerphobic team. Consider switching to [Prism Launcher](https://prismlauncher.org/), a fork with more features and better support."

/-- Description of the `optifabric` report. -/
def optifabricDesc : String :=
  "Optifine is known to cause problems with many mods on Fabric. If you're having strange issues or crashes, consider replacing it with some of the many available [alternatives](https://lambdaurora.dev/optifine_alternatives/)."

/-- Description of the `bclib` report. -/
def bclibDesc : String :=
  "BCLib is known to cause issues with some mods. If you're experiencing crashes or other problems, consider trying without it."

/-- Description of the `indium` report. -/
def indiumDesc : String :=
  "A mod is trying to make use of Fabric Rendering API, which may be missing when rendering mods such as Sodium are loaded. If you use Sodium, install [Indium](https://modrinth.com/mod/indium) to resolve this."

/-- Translation table from a class-file version token to a human Java
version label, `match_java_classfile_version` from `checks.rs`. -/
def match_java_classfile_version : String → Option String
  | "49.0" => some ("5")
  | "50.0" => some ("6")
  | "51.0" => some ("7")
  | "52.0" => some ("8")
  | "53.0" => some ("9")
  | "54.0" => some ("10")
  | "55.0" => some ("11")
  | "56.0" => some ("12")
  | "57.0" => some ("13")
  | "58.0" => some ("14")
  | "59.0" => some ("15")
  | "60.0" => some ("16")
  | "61.0" => some ("17")
  | "62.0" => some ("18")
  | "63.0" => some ("19")
  | "64.0" => some ("20")
  | "65.0" => some ("21")
  | _ => none

/-- Type of one catalogue rule: log text and context in, a panic or an
optional report out. -/
abbrev Check := String → EnvironmentContext → Except String (Option CheckReport)

/-- Rule `crash_report_analysis` from `checks.rs`. -/
def crash_report_analysis : Check := fun log _ctx =>
  match grab_all log [crashReportPat] with
  | some captures =>
    match capGet captures 1 with
    | none => Except.error ("Regex err")
    | some description =>
      match capGet captures 2 with
      | none => Except.error ("Regex err 2")
      | some error =>
        Except.ok (some { title := "Crash report analysis",
                          description := crashReportDesc description error,
                          severity := Severity.None })
  | none => Except.ok none

/-- Rule `dependency_generic` from `checks.rs`. -/
def dependency_generic : Check := fun log _ctx =>
  match grab_all log [depPat1, depPat2, depPat3] with
  | some captures =>
    match capGet captures 1 with
    | none => Except.error ("Regex err")
    | some dependent =>
      match capGet captures 2 with
      | none => Except.error ("Regex err 2")
      | some dependency =>
        Except.ok (some { title := "Missing dependency",
                          description := depDesc dependent dependency,
                          severity := Severity.High })
  | none => Except.ok none

/-- Rule `crash_generic` from `checks.rs`: three ordered sub-checks, first
match wins. -/
def crash_generic : Check := fun log _ctx =>
  match grab_all log [cgPat1, cgPat2] with
  | some captures =>
    match capGet captures 1 with
    | none => Except.error ("Regex err")
    | some mixin =>
      match capGet captures 2 with
      | none => Except.error ("Regex err 2")
      | some mod_id =>
        Except.ok (some { title := "Mixin inject failed",
                          description := mixinInjectDesc mixin mod_id,
                          severity := Severity.High })
  | none =>
    match grab log [cgPat3] with
    | some (some mod_id) =>
      Except.ok (some { title := "Mixin error",
                        description := mixinErrorDesc mod_id,
                        severity := Severity.High })
    | _ =>
      match grab log [cgPat4] with
      | some (some mod_id) =>
        Except.ok (some { title := "Entrypoint error",
                          description := entrypointDesc mod_id,
                          severity := Severity.High })
      | _ => Except.ok none

/-- Rule `java` from `checks.rs`: two ordered sub-checks, first match wins;
the second degrades to a generic description when a class-file version is
outside the translation table. -/
def java : Check := fun log _ctx =>
  match grab_all log [javaPat1] with
  | some captures =>
    match capGet captures 1 with
    | none => Except.error ("Regex err")
    | some has =>
      match capGet captures 2 with
      | none => Except.error ("Regex err 2")
      | some need =>
        Except.ok (some { title := "Incorrect Java version",
                          description := javaVersionDesc (String.mk need) (String.mk has),
                          severity := Severity.High })
  | none =>
    match grab_all log [javaPat2] with
    | some captures =>
      match capGet captures 2 with
      | none => Except.error ("Regex err")
      | some g2 =>
        match capGet captures 1 with
        | none => Except.error ("Regex err 2")
        | some g1 =>
          Except.ok (some { title := "Incorrect Java version",
                            description :=
                              match match_java_classfile_version (String.mk g2),
                                    match_java_classfile_version (String.mk g1) with
                              | some has, some need => javaVersionDesc need has
                              | _, _ => javaGenericDesc,
                            severity := Severity.High })
    | none => Except.ok none

/-- Rule `missing_field` from `checks.rs`. -/
def missing_field : Check := fun log _ctx =>
  if (grab log [mfPat]).isSome then
    Except.ok (some { title := "Field missing error",
                      description := missingFieldDesc,
                      severity := Severity.High })
  else Except.ok none

/-- Rule `polymc` from `checks.rs`: consults only the context. -/
def polymc : Check := fun _log ctx =>
  match ctx.launcher with
  | some Launcher.PolyMC =>
    Except.ok (some { title := "PolyMC Detected",
                      description := polymcDesc,
                      severity := Severity.Medium })
  | _ => Except.ok none

/-- Rule `optifabric` from `checks.rs`: known-mods membership OR a text
pattern, either signal fires the rule. -/
def optifabric : Check := fun log ctx =>
  if (ctx.known_mods.find? (fun m => m.1.id == "optifabric")).isSome
      || (grab log [optiPat1, optiPat2]).isSome then
    Except.ok (some { title := "OptiFabric detected",
                      description := optifabricDesc,
                      severity := Severity.High })
  else Except.ok none

/-- Rule `bclib` from `checks.rs`: known-mods membership only. -/
def bclib : Check := fun _log ctx =>
  if (ctx.known_mods.find? (fun m => m.1.id == "bclib")).isSome then
    Except.ok (some { title := "BCLib detected",
                      description := bclibDesc,
                      severity := Severity.Medium })
  else Except.ok none

/-- Rule `indium` from `checks.rs`. -/
def indium : Check := fun log _ctx =>
  if (grab log [indiumPat]).isSome then
    Except.ok (some { title := "Missing Indium",
                      description := indiumDesc,
                      severity := Severity.High })
  else Except.ok none

/-- The rule catalogue, in declaration order, from `check_checks` in
`checks.rs`. -/
def checksList : List Check :=
  [crash_report_analysis, dependency_generic, crash_generic, java,
   missing_field, polymc, optifabric, bclib, indium]

/-- Sequential evaluation of a list of rules: the `filter_map`/`collect` of
`check_checks`, with a panic in one rule aborting the rest, as a Rust panic
would unwind out of the iteration. -/
def runChecks : List Check → String → EnvironmentContext → Except String (List CheckReport)
  | [], _, _ => Except.ok []
  | c :: cs, log, ctx =>
    match c log ctx with
    | Except.error e => Except.error e
    | Except.ok o =>
      match runChecks cs log ctx with
      | Except.error e => Except.error e
      | Except.ok rest =>
        Except.ok
          (match o with
           | some r => r :: rest
           | none => rest)

/-- The aggregator, `check_checks` from `checks.rs`. -/
def check_checks (log : String) (ctx : EnvironmentContext) : Except String (List CheckReport) :=
  runChecks checksList log ctx

/-- The report a rule contributes to the aggregate: its report on a match,
nothing on a no-match, and also nothing on a panic (used to state what the
aggregate would be when no rule panics). -/
def ruleOpt (c : Check) (log : String) (ctx : EnvironmentContext) : Option CheckReport :=
  match c log ctx with
  | Except.ok o => o
  | Except.error _ => none

/-- Substring occurrence test: does `needle` occur contiguously in the
second list?  Used to state that a description "mentions" a token. -/
def listSub (needle : List Char) : List Char → Bool
  | [] => needle.isEmpty
  | c :: rest => needle.isPrefixOf (c :: rest) || listSub needle rest

/-- Does the pattern declare capture group `i`? -/
def hasGroup (i : Nat) (p : List RItem) : Bool :=
  p.any (fun it =>
    match it with
    | RItem.group j _ => j == i
    | _ => false)

/-- The aggregate that `check_checks` produces when no rule panics: each
rule's optional report, in catalogue order. -/
def aggregate (log : String) (ctx : EnvironmentContext) : List CheckReport :=
  checksList.filterMap (fun c => ruleOpt c log ctx)

/-- The declared numeric domain of the Java class-file-version translation
table. -/
def javaDomain : List String :=
  ["49.0", "50.0", "51.0", "52.0", "53.0", "54.0", "55.0", "56.0", "57.0",
   "58.0", "59.0", "60.0", "61.0", "62.0", "63.0", "64.0", "65.0"]

/-- The eleven report titles of the catalogue, in catalogue order. -/
def allTitles : List String :=
  ["Crash report analysis", "Missing dependency", "Mixin inject failed",
   "Mixin error", "Entrypoint error", "Incorrect Java version",
   "Field missing error", "PolyMC Detected", "OptiFabric detected",
   "BCLib detected", "Missing Indium"]

/-- The fixed report of the `bclib` rule. -/
def bclibReport : CheckReport :=
  { title := "BCLib detected", description := bclibDesc, severity := Severity.Medium }

/-- The "unknown launcher, empty known-mods" environment context. -/
def ctxU : EnvironmentContext := { launcher := none, known_mods := [] }

/-- The input of the spec's first end-to-end scenario, verbatim. -/
def logSpecC2 : String := "Mod 'Foo' (foo) requires any version of Bar Lib, which is missing!"

/-- The spec's first end-to-end scenario with the version token that the
loader message actually carries between the mod id and `requires`. -/
def logAmendC2 : String := "Mod 'Foo' (foo) 1.0.0 requires any version of Bar Lib, which is missing!"

/-- An `UnsupportedClassVersionError` line with class-file versions 61.0
(required) and 52.0 (present). -/
def logUcve : String := "UnsupportedClassVersionError: com/example/Main has been compiled by a more recent version of the Java Runtime (class file version 61.0), this version of the Java Runtime only recognizes class file versions up to 52.0"

/-- A log holding a replace-suggestion line (Java 5 present, 9 required)
followed by the 61.0/52.0 `UnsupportedClassVersionError` line. -/
def logJavaBoth : String := "- Replace 'Old Java' (java) 5 with version 9 or later.\n" ++ logUcve

/-- An `UnsupportedClassVersionError` line whose required class-file version
is outside the translation table. -/
def logUcveOddball : String := "UnsupportedClassVersionError: com/example/Main has been compiled by a more recent version of the Java Runtime (class file version 99.0), this version of the Java Runtime only recognizes class file versions up to 52.0"

/-- A log matched by both the first and the third alternative pattern of
`dependency_generic`, on different lines. -/
def logDepBoth : String := "Mod 'Alpha' (alpha) 1.0.0 requires any version between 1.0.0 and 2.0.0 of AlphaLib, which is missing!\nMod 'Beta' (beta) 2.0.0 requires any version of BetaLib, which is missing!"

/-- A log matched by both the first and the second sub-check of
`crash_generic`, on different lines. -/
def logCgBoth : String := "InvalidInjectionException: Critical injection failure: @Inject annotation on net/minecraft/client/Minecraft could not find any targets matching 'render()' in example.mixins.json. Using refmap example-refmap.json [PREINJECT Applicator Phase -> example.mixins.json:MinecraftMixin from mod examplemod\nMixinApplyError: Mixin [other.mixins.json:OtherMixin from mod othermod] from phase [DEFAULT] in config [other.mixins.json] FAILED during APPLY"

/-- An environment context whose known-mods mapping holds `optifabric`. -/
def ctxOptifabric : EnvironmentContext :=
  { launcher := none, known_mods := [({ id := "optifabric" }, ())] }

/-- An environment context whose known-mods mapping holds `bclib`. -/
def ctxBclib : EnvironmentContext :=
  { launcher := none, known_mods := [({ id := "bclib" }, ())] }

set_option maxRecDepth 4000000

set_option maxHeartbeats 2000000

theorem exists_of_firstSome_eq_some {f : α → Option β} :
    ∀ {l : List α} {b : β}, firstSome f l = some b → ∃ a, a ∈ l ∧ f a = some b := by
  intro l
  induction l with
  | nil => intro b h; simp [firstSome] at h
  | cons a l ih =>
    intro b h
    simp only [firstSome] at h
    cases hfa : f a with
    | some b' =>
      rw [hfa] at h
      exact ⟨a, List.mem_cons_self a l, hfa.trans h⟩
    | none =>
      rw [hfa] at h
      obtain ⟨a', ha', hfa'⟩ := ih h
      exact ⟨a', List.mem_cons_of_mem a ha', hfa'⟩

theorem matchItems_group_isSome :
    ∀ {items : List RItem} {s : List Char} {caps : Caps} {i : Nat},
      matchItems items s = some caps → hasGroup i items = true →
      (capGet caps i).isSome = true := by
  intro items
  induction items with
  | nil => intro s caps i _ hg; simp [hasGroup] at hg
  | cons it ps ih =>
    intro s caps i h hg
    cases it with
    | ch c =>
      cases s with
      | nil => simp [matchItems] at h
      | cons x s' =>
        simp only [matchItems] at h
        by_cases hx : x = c
        · rw [if_pos hx] at h
          exact ih h (by simpa [hasGroup] using hg)
        · rw [if_neg hx] at h
          exact absurd h (by simp)
    | plus a =>
      simp only [matchItems] at h
      obtain ⟨k, _, hk⟩ := exists_of_firstSome_eq_some h
      exact ih hk (by simpa [hasGroup] using hg)
    | group j b =>
      simp only [matchItems] at h
      obtain ⟨k, _, hk⟩ := exists_of_firstSome_eq_some h
      cases hm : matchItems ps (s.drop k) with
      | none => rw [hm] at hk; simp at hk
      | some caps' =>
        rw [hm] at hk
        simp only [Option.map] at hk
        have hcaps := Option.some.inj hk
        subst hcaps
        by_cases hij : i = j
        · simp [capGet, hij]
        · have hg' : hasGroup i ps = true := by
            simp only [hasGroup, List.any_cons] at hg
            rcases Bool.or_eq_true_iff.mp hg with hg0 | hg0
            · simp only [beq_iff_eq] at hg0
              exact absurd hg0.symm hij
            · exact hg0
          have := ih hm hg'
          simpa [capGet, hij] using this

theorem searchPat_group_isSome :
    ∀ {s : List Char} {p : List RItem} {caps : Caps} {i : Nat},
      searchPat p s = some caps → hasGroup i p = true →
      (capGet caps i).isSome = true := by
  intro s
  induction s with
  | nil =>
    intro p caps i h hg
    simp only [searchPat] at h
    exact matchItems_group_isSome h hg
  | cons c rest ih =>
    intro p caps i h hg
    simp only [searchPat] at h
    cases hm : matchItems p (c :: rest) with
    | some caps' =>
      rw [hm] at h
      exact matchItems_group_isSome (hm.trans h) hg
    | none =>
      rw [hm] at h
      exact ih h hg

theorem grab_all_group_isSome (i : Nat) {log : String} {pats : List (List RItem)} {caps : Caps}
    (h : grab_all log pats = some caps) (hg : ∀ p ∈ pats, hasGroup i p = true) :
    (capGet caps i).isSome = true := by
  obtain ⟨p, hp, hsp⟩ := exists_of_firstSome_eq_some h
  exact searchPat_group_isSome hsp (hg p hp)

theorem crash_report_analysis_ok (log : String) (ctx : EnvironmentContext) :
    ∃ o, crash_report_analysis log ctx = Except.ok o := by
  cases hg : grab_all log [crashReportPat] with
  | none => exact ⟨none, by simp only [crash_report_analysis, hg]⟩
  | some captures =>
    obtain ⟨d, hd⟩ := Option.isSome_iff_exists.mp (grab_all_group_isSome 1 hg (by decide))
    obtain ⟨e, he⟩ := Option.isSome_iff_exists.mp (grab_all_group_isSome 2 hg (by decide))
    exact ⟨_, by simp only [crash_report_analysis, hg, hd, he]; rfl⟩

theorem dependency_generic_ok (log : String) (ctx : EnvironmentContext) :
    ∃ o, dependency_generic log ctx = Except.ok o := by
  cases hg : grab_all log [depPat1, depPat2, depPat3] with
  | none => exact ⟨none, by simp only [dependency_generic, hg]⟩
  | some captures =>
    obtain ⟨d, hd⟩ := Option.isSome_iff_exists.mp (grab_all_group_isSome 1 hg (by decide))
    obtain ⟨e, he⟩ := Option.isSome_iff_exists.mp (grab_all_group_isSome 2 hg (by decide))
    exact ⟨_, by simp only [dependency_generic, hg, hd, he]; rfl⟩

theorem crash_generic_ok (log : String) (ctx : EnvironmentContext) :
    ∃ o, crash_generic log ctx = Except.ok o := by
  cases hg : grab_all log [cgPat1, cgPat2] with
  | some captures =>
    obtain ⟨d, hd⟩ := Option.isSome_iff_exists.mp (grab_all_group_isSome 1 hg (by decide))
    obtain ⟨e, he⟩ := Option.isSome_iff_exists.mp (grab_all_group_isSome 2 hg (by decide))
    exact ⟨_, by simp only [crash_generic, hg, hd, he]; rfl⟩
  | none =>
    cases h3 : grab log [cgPat3] with
    | none =>
      cases h4 : grab log [cgPat4] with
      | none => exact ⟨_, by simp only [crash_generic, hg, h3, h4]; rfl⟩
      | some o4 =>
        cases o4 <;> exact ⟨_, by simp only [crash_generic, hg, h3, h4]; rfl⟩
    | some o3 =>
      cases o3 with
      | some m => exact ⟨_, by simp only [crash_generic, hg, h3]; rfl⟩
      | none =>
        cases h4 : grab log [cgPat4] with
        | none => exact ⟨_, by simp only [crash_generic, hg, h3, h4]; rfl⟩
        | some o4 =>
          cases o4 <;> exact ⟨_, by simp only [crash_generic, hg, h3, h4]; rfl⟩

theorem java_ok (log : String) (ctx : EnvironmentContext) :
    ∃ o, java log ctx = Except.ok o := by
  cases hg1 : grab_all log [javaPat1] with
  | some captures =>
    obtain ⟨d, hd⟩ := Option.isSome_iff_exists.mp (grab_all_group_isSome 1 hg1 (by decide))
    obtain ⟨e, he⟩ := Option.isSome_iff_exists.mp (grab_all_group_isSome 2 hg1 (by decide))
    exact ⟨_, by simp only [java, hg1, hd, he]; rfl⟩
  | none =>
    cases hg2 : grab_all log [javaPat2] with
    | none => exact ⟨none, by simp only [java, hg1, hg2]⟩
    | some captures =>
      obtain ⟨d, hd⟩ := Option.isSome_iff_exists.mp (grab_all_group_isSome 1 hg2 (by decide))
      obtain ⟨e, he⟩ := Option.isSome_iff_exists.mp (grab_all_group_isSome 2 hg2 (by decide))
      exact ⟨_, by simp only [java, hg1, hg2, hd, he]; rfl⟩

theorem missing_field_ok (log : String) (ctx : EnvironmentContext) :
    ∃ o, missing_field log ctx = Except.ok o := by
  simp only [missing_field]
  split <;> exact ⟨_, rfl⟩

theorem polymc_ok (log : String) (ctx : EnvironmentContext) :
    ∃ o, polymc log ctx = Except.ok o := by
  simp only [polymc]
  split <;> exact ⟨_, rfl⟩

theorem optifabric_ok (log : String) (ctx : EnvironmentContext) :
    ∃ o, optifabric log ctx = Except.ok o := by
  simp only [optifabric]
  split <;> exact ⟨_, rfl⟩

theorem bclib_ok (log : String) (ctx : EnvironmentContext) :
    ∃ o, bclib log ctx = Except.ok o := by
  simp only [bclib]
  split <;> exact ⟨_, rfl⟩

theorem indium_ok (log : String) (ctx : EnvironmentContext) :
    ∃ o, indium log ctx = Except.ok o := by
  simp only [indium]
  split <;> exact ⟨_, rfl⟩

theorem checks_all_ok :
    ∀ c ∈ checksList, ∀ (log : String) (ctx : EnvironmentContext),
      ∃ o, c log ctx = Except.ok o := by
  intro c hc log ctx
  simp only [checksList, List.mem_cons, List.not_mem_nil, or_false] at hc
  rcases hc with rfl | rfl | rfl | rfl | rfl | rfl | rfl | rfl | rfl
  · exact crash_report_analysis_ok log ctx
  · exact dependency_generic_ok log ctx
  · exact crash_generic_ok log ctx
  · exact java_ok log ctx
  · exact missing_field_ok log ctx
  · exact polymc_ok log ctx
  · exact optifabric_ok log ctx
  · exact bclib_ok log ctx
  · exact indium_ok log ctx

theorem runChecks_ok :
    ∀ (cs : List Check) (log : String) (ctx : EnvironmentContext),
      (∀ c ∈ cs, ∃ o, c log ctx = Except.ok o) →
      runChecks cs log ctx = Except.ok (cs.filterMap (fun c => ruleOpt c log ctx)) := by
  intro cs
  induction cs with
  | nil => intro log ctx _; rfl
  | cons c cs ih =>
    intro log ctx h
    obtain ⟨o, ho⟩ := h c (List.mem_cons_self c cs)
    have hrest := ih log ctx (fun c' hc' => h c' (List.mem_cons_of_mem c hc'))
    simp only [runChecks, ho, hrest, List.filterMap_cons, ruleOpt]
    cases o <;> simp

theorem check_checks_eq (log : String) (ctx : EnvironmentContext) :
    check_checks log ctx = Except.ok (aggregate log ctx) :=
  runChecks_ok checksList log ctx (fun c hc => checks_all_ok c hc log ctx)

theorem crash_report_analysis_none {log : String} (ctx : EnvironmentContext)
    (h : grab_all log [crashReportPat] = none) :
    crash_report_analysis log ctx = Except.ok none := by
  simp only [crash_report_analysis, h]

theorem dependency_generic_none {log : String} (ctx : EnvironmentContext)
    (h : grab_all log [depPat1, depPat2, depPat3] = none) :
    dependency_generic log ctx = Except.ok none := by
  simp only [dependency_generic, h]

theorem crash_generic_none {log : String} (ctx : EnvironmentContext)
    (h1 : grab_all log [cgPat1, cgPat2] = none)
    (h3 : grab log [cgPat3] = none) (h4 : grab log [cgPat4] = none) :
    crash_generic log ctx = Except.ok none := by
  simp only [crash_generic, h1, h3, h4]

theorem java_none {log : String} (ctx : EnvironmentContext)
    (h1 : grab_all log [javaPat1] = none) (h2 : grab_all log [javaPat2] = none) :
    java log ctx = Except.ok none := by
  simp only [java, h1, h2]

theorem missing_field_none {log : String} (ctx : EnvironmentContext)
    (h : grab log [mfPat] = none) :
    missing_field log ctx = Except.ok none := by
  simp [missing_field, h]

theorem polymc_none {ctx : EnvironmentContext} (log : String)
    (h : ctx.launcher ≠ some Launcher.PolyMC) :
    polymc log ctx = Except.ok none := by
  simp only [polymc]

theorem optifabric_none {log : String} {ctx : EnvironmentContext}
    (h1 : (ctx.known_mods.find? (fun m => m.1.id == "optifabric")) = none)
    (h2 : grab log [optiPat1, optiPat2] = none) :
    optifabric log ctx = Except.ok none := by
  simp [optifabric, h1, h2]

theorem bclib_none {ctx : EnvironmentContext} (log : String)
    (h : (ctx.known_mods.find? (fun m => m.1.id == "bclib")) = none) :
    bclib log ctx = Except.ok none := by
  simp [bclib, h]

theorem indium_none {log : String} (ctx : EnvironmentContext)
    (h : grab log [indiumPat] = none) :
    indium log ctx = Except.ok none := by
  simp [indium, h]

theorem bclib_fires {ctx : EnvironmentContext} (log : String)
    (h : (ctx.known_mods.find? (fun m => m.1.id == "bclib")).isSome = true) :
    bclib log ctx = Except.ok (some bclibReport) := by
  simp [bclib, h, bclibReport]

theorem ruleOpt_some {c : Check} {log : String} {ctx : EnvironmentContext} {r : CheckReport}
    (h : ruleOpt c log ctx = some r) : c log ctx = Except.ok (some r) := by
  cases hc : c log ctx with
  | error e => simp [ruleOpt, hc] at h
  | ok o =>
    simp only [ruleOpt, hc] at h
    rw [h]

theorem ruleOpt_of_ok {c : Check} {log : String} {ctx : EnvironmentContext} {o : Option CheckReport}
    (h : c log ctx = Except.ok o) : ruleOpt c log ctx = o := by
  simp only [ruleOpt, h]

theorem crash_report_analysis_shape {log : String} {ctx : EnvironmentContext} {r : CheckReport}
    (h : crash_report_analysis log ctx = Except.ok (some r)) :
    r.title = "Crash report analysis" := by
  cases hg : grab_all log [crashReportPat] with
  | none => simp [crash_report_analysis, hg] at h
  | some captures =>
    obtain ⟨d, hd⟩ := Option.isSome_iff_exists.mp (grab_all_group_isSome 1 hg (by decide))
    obtain ⟨e, he⟩ := Option.isSome_iff_exists.mp (grab_all_group_isSome 2 hg (by decide))
    simp only [crash_report_analysis, hg, hd, he, Except.ok.injEq, Option.some.injEq] at h
    subst h
    rfl

theorem dependency_generic_shape {log : String} {ctx : EnvironmentContext} {r : CheckReport}
    (h : dependency_generic log ctx = Except.ok (some r)) :
    r.title = "Missing dependency" := by
  cases hg : grab_all log [depPat1, depPat2, depPat3] with
  | none => simp [dependency_generic, hg] at h
  | some captures =>
    obtain ⟨d, hd⟩ := Option.isSome_iff_exists.mp (grab_all_group_isSome 1 hg (by decide))
    obtain ⟨e, he⟩ := Option.isSome_iff_exists.mp (grab_all_group_isSome 2 hg (by decide))
    simp only [dependency_generic, hg, hd, he, Except.ok.injEq, Option.some.injEq] at h
    subst h
    rfl

theorem crash_generic_shape {log : String} {ctx : EnvironmentContext} {r : CheckReport}
    (h : crash_generic log ctx = Except.ok (some r)) :
    r.title = "Mixin inject failed" ∨ r.title = "Mixin error" ∨ r.title = "Entrypoint error" := by
  cases hg : grab_all log [cgPat1, cgPat2] with
  | some captures =>
    obtain ⟨d, hd⟩ := Option.isSome_iff_exists.mp (grab_all_group_isSome 1 hg (by decide))
    obtain ⟨e, he⟩ := Option.isSome_iff_exists.mp (grab_all_group_isSome 2 hg (by decide))
    simp only [crash_generic, hg, hd, he, Except.ok.injEq, Option.some.injEq] at h
    subst h
    exact Or.inl rfl
  | none =>
    cases h3 : grab log [cgPat3] with
    | some o3 =>
      cases o3 with
      | some m =>
        simp only [crash_generic, hg, h3, Except.ok.injEq, Option.some.injEq] at h
        subst h
        exact Or.inr (Or.inl rfl)
      | none =>
        cases h4 : grab log [cgPat4] with
        | some o4 =>
          cases o4 with
          | some m =>
            simp only [crash_generic, hg, h3, h4, Except.ok.injEq, Option.some.injEq] at h
            subst h
            exact Or.inr (Or.inr rfl)
          | none => simp [crash_generic, hg, h3, h4] at h
        | none => simp [crash_generic, hg, h3, h4] at h
    | none =>
      cases h4 : grab log [cgPat4] with
      | some o4 =>
        cases o4 with
        | some m =>
          simp only [crash_generic, hg, h3, h4, Except.ok.injEq, Option.some.injEq] at h
          subst h
          exact Or.inr (Or.inr rfl)
        | none => simp [crash_generic, hg, h3, h4] at h
      | none => simp [crash_generic, hg, h3, h4] at h

theorem java_shape {log : String} {ctx : EnvironmentContext} {r : CheckReport}
    (h : java log ctx = Except.ok (some r)) :
    r.title = "Incorrect Java version" := by
  cases hg1 : grab_all log [javaPat1] with
  | some captures =>
    obtain ⟨d, hd⟩ := Option.isSome_iff_exists.mp (grab_all_group_isSome 1 hg1 (by decide))
    obtain ⟨e, he⟩ := Option.isSome_iff_exists.mp (grab_all_group_isSome 2 hg1 (by decide))
    simp only [java, hg1, hd, he, Except.ok.injEq, Option.some.injEq] at h
    subst h
    rfl
  | none =>
    cases hg2 : grab_all log [javaPat2] with
    | none => simp [java, hg1, hg2] at h
    | some captures =>
      obtain ⟨d, hd⟩ := Option.isSome_iff_exists.mp (grab_all_group_isSome 1 hg2 (by decide))
      obtain ⟨e, he⟩ := Option.isSome_iff_exists.mp (grab_all_group_isSome 2 hg2 (by decide))
      simp only [java, hg1, hg2, hd, he, Except.ok.injEq, Option.some.injEq] at h
      subst h
      rfl

theorem missing_field_shape {log : String} {ctx : EnvironmentContext} {r : CheckReport}
    (h : missing_field log ctx = Except.ok (some r)) :
    r.title = "Field missing error" := by
  simp only [missing_field] at h
  split at h
  · simp only [Except.ok.injEq, Option.some.injEq] at h
    subst h
    rfl
  · simp at h

theorem polymc_shape {log : String} {ctx : EnvironmentContext} {r : CheckReport}
    (h : polymc log ctx = Except.ok (some r)) :
    r.title = "PolyMC Detected" := by
  simp only [polymc] at h
  split at h
  · simp only [Except.ok.injEq, Option.some.injEq] at h
    subst h
    rfl
  · simp at h

theorem optifabric_shape {log : String} {ctx : EnvironmentContext} {r : CheckReport}
    (h : optifabric log ctx = Except.ok (some r)) :
    r.title = "OptiFabric detected" := by
  simp only [optifabric] at h
  split at h
  · simp only [Except.ok.injEq, Option.some.injEq] at h
    subst h
    rfl
  · simp at h

theorem bclib_shape {log : String} {ctx : EnvironmentContext} {r : CheckReport}
    (h : bclib log ctx = Except.ok (some r)) :
    r.title = "BCLib detected" := by
  simp only [bclib] at h
  split at h
  · simp only [Except.ok.injEq, Option.some.injEq] at h
    subst h
    rfl
  · simp at h

theorem indium_shape {log : String} {ctx : EnvironmentContext} {r : CheckReport}
    (h : indium log ctx = Except.ok (some r)) :
    r.title = "Missing Indium" := by
  simp only [indium] at h
  split at h
  · simp only [Except.ok.injEq, Option.some.injEq] at h
    subst h
    rfl
  · simp at h

theorem countP_filterMap (p : β → Bool) (f : α → Option β) :
    ∀ l : List α, List.countP p (List.filterMap f l) =
      List.countP (fun a => ((f a).map p).getD false) l := by
  intro l
  induction l with
  | nil => rfl
  | cons a l ih =>
    cases hfa : f a with
    | none => simp [List.filterMap_cons, hfa, List.countP_cons, ih]
    | some b => simp [List.filterMap_cons, hfa, List.countP_cons, ih]

theorem filterMap_title_sublist_single {f : Check → Option CheckReport} {c : Check}
    {cs : List Check} {t : String} {ts : List String}
    (hc : ∀ r, f c = some r → r.title = t)
    (hrest : ((List.filterMap f cs).map CheckReport.title).Sublist ts) :
    ((List.filterMap f (c :: cs)).map CheckReport.title).Sublist (t :: ts) := by
  cases hfc : f c with
  | none =>
    simp only [List.filterMap_cons, hfc]
    exact hrest.cons t
  | some r =>
    simp only [List.filterMap_cons, hfc, List.map_cons]
    rw [hc r hfc]
    exact hrest.cons₂ t

theorem filterMap_title_sublist_tri {f : Check → Option CheckReport} {c : Check}
    {cs : List Check} {t1 t2 t3 : String} {ts : List String}
    (hc : ∀ r, f c = some r → r.title = t1 ∨ r.title = t2 ∨ r.title = t3)
    (hrest : ((List.filterMap f cs).map CheckReport.title).Sublist ts) :
    ((List.filterMap f (c :: cs)).map CheckReport.title).Sublist (t1 :: t2 :: t3 :: ts) := by
  cases hfc : f c with
  | none =>
    simp only [List.filterMap_cons, hfc]
    exact ((hrest.cons t3).cons t2).cons t1
  | some r =>
    simp only [List.filterMap_cons, hfc, List.map_cons]
    rcases hc r hfc with h | h | h
    · rw [h]
      exact ((hrest.cons t3).cons t2).cons₂ t1
    · rw [h]
      exact ((hrest.cons t3).cons₂ t2).cons t1
    · rw [h]
      exact ((hrest.cons₂ t3).cons t2).cons t1

theorem aggregate_titles_sublist (log : String) (ctx : EnvironmentContext) :
    ((aggregate log ctx).map CheckReport.title).Sublist allTitles := by
  unfold aggregate checksList allTitles
  apply filterMap_title_sublist_single
    (fun r h => crash_report_analysis_shape (ruleOpt_some h))
  apply filterMap_title_sublist_single
    (fun r h => dependency_generic_shape (ruleOpt_some h))
  apply filterMap_title_sublist_tri
    (fun r h => crash_generic_shape (ruleOpt_some h))
  apply filterMap_title_sublist_single
    (fun r h => java_shape (ruleOpt_some h))
  apply filterMap_title_sublist_single
    (fun r h => missing_field_shape (ruleOpt_some h))
  apply filterMap_title_sublist_single
    (fun r h => polymc_shape (ruleOpt_some h))
  apply filterMap_title_sublist_single
    (fun r h => optifabric_shape (ruleOpt_some h))
  apply filterMap_title_sublist_single
    (fun r h => bclib_shape (ruleOpt_some h))
  apply filterMap_title_sublist_single
    (fun r h => indium_shape (ruleOpt_some h))
  simp

theorem aggregate_titles_pairwise (log : String) (ctx : EnvironmentContext) :
    (aggregate log ctx).Pairwise (fun r r' => r.title ≠ r'.title) := by
  have hnd : ((aggregate log ctx).map CheckReport.title).Nodup :=
    List.Nodup.sublist (aggregate_titles_sublist log ctx) (by decide)
  exact List.pairwise_map.mp hnd

theorem aggregate_length_le (log : String) (ctx : EnvironmentContext) :
    (aggregate log ctx).length ≤ 9 := by
  have h := List.length_filterMap_le (fun c => ruleOpt c log ctx) checksList
  simpa [aggregate, checksList] using h

theorem indicator_false {c : Check} {log : String} {ctx : EnvironmentContext}
    {p : CheckReport → Bool}
    (h : ∀ r, ruleOpt c log ctx = some r → p r = false) :
    ((ruleOpt c log ctx).map p).getD false = false := by
  cases hr : ruleOpt c log ctx with
  | none => rfl
  | some r => simp [h r hr]

theorem aggregate_bclib_count {log : String} {ctx : EnvironmentContext}
    (h : (ctx.known_mods.find? (fun m => m.1.id == "bclib")).isSome = true) :
    List.countP (fun r => r.title == "BCLib detected") (aggregate log ctx) = 1 := by
  have hb : ruleOpt bclib log ctx = some bclibReport := ruleOpt_of_ok (bclib_fires log h)
  have e1 : ((ruleOpt crash_report_analysis log ctx).map
      (fun r => r.title == "BCLib detected")).getD false = false :=
    indicator_false (fun r hr => by
      rw [crash_report_analysis_shape (ruleOpt_some hr)]; rfl)
  have e2 : ((ruleOpt dependency_generic log ctx).map
      (fun r => r.title == "BCLib detected")).getD false = false :=
    indicator_false (fun r hr => by
      rw [dependency_generic_shape (ruleOpt_some hr)]; rfl)
  have e3 : ((ruleOpt crash_generic log ctx).map
      (fun r => r.title == "BCLib detected")).getD false = false :=
    indicator_false (fun r hr => by
      rcases crash_generic_shape (ruleOpt_some hr) with ht | ht | ht <;> rw [ht] <;> rfl)
  have e4 : ((ruleOpt java log ctx).map
      (fun r => r.title == "BCLib detected")).getD false = false :=
    indicator_false (fun r hr => by rw [java_shape (ruleOpt_some hr)]; rfl)
  have e5 : ((ruleOpt missing_field log ctx).map
      (fun r => r.title == "BCLib detected")).getD false = false :=
    indicator_false (fun r hr => by rw [missing_field_shape (ruleOpt_some hr)]; rfl)
  have e6 : ((ruleOpt polymc log ctx).map
      (fun r => r.title == "BCLib detected")).getD false = false :=
    indicator_false (fun r hr => by rw [polymc_shape (ruleOpt_some hr)]; rfl)
  have e7 : ((ruleOpt optifabric log ctx).map
      (fun r => r.title == "BCLib detected")).getD false = false :=
    indicator_false (fun r hr => by rw [optifabric_shape (ruleOpt_some hr)]; rfl)
  have e9 : ((ruleOpt indium log ctx).map
      (fun r => r.title == "BCLib detected")).getD false = false :=
    indicator_false (fun r hr => by rw [indium_shape (ruleOpt_some hr)]; rfl)
  rw [aggregate, countP_filterMap]
  simp only [checksList, List.countP_cons, List.countP_nil, e1, e2, e3, e4, e5, e6, e7, e9, hb]
  simp [bclibReport]

theorem aggregate_bclib_mem {log : String} {ctx : EnvironmentContext}
    (h : (ctx.known_mods.find? (fun m => m.1.id == "bclib")).isSome = true) :
    bclibReport ∈ aggregate log ctx := by
  rw [aggregate]
  refine List.mem_filterMap.mpr ⟨bclib, ?_, ruleOpt_of_ok (bclib_fires log h)⟩
  simp [checksList]

theorem filterMap_cons_toList (f : α → Option β) (a : α) (l : List α) :
    List.filterMap f (a :: l) = (f a).toList ++ List.filterMap f l := by
  cases h : f a <;> simp [List.filterMap_cons, h]

/-- C1: during any evaluation of the catalogue, the defect "a rule's pattern
matched but an expected capture group is absent" cannot arise: whenever a
rule's pattern set matches, capture groups 1 and 2 (the groups every
capture-extracting rule expects) participate in the match, so the modelled
panic (`Option::expect`, `Except.error` here) is unreachable, the whole
evaluation never crashes, and every catalogue rule runs and contributes its
report to the aggregate. -/
theorem c1_no_crash_every_rule_runs (log : String) (ctx : EnvironmentContext) :
    check_checks log ctx = Except.ok (aggregate log ctx) ∧
    (∀ caps, grab_all log [crashReportPat] = some caps →
      (capGet caps 1).isSome = true ∧ (capGet caps 2).isSome = true) ∧
    (∀ caps, grab_all log [depPat1, depPat2, depPat3] = some caps →
      (capGet caps 1).isSome = true ∧ (capGet caps 2).isSome = true) ∧
    (∀ caps, grab_all log [cgPat1, cgPat2] = some caps →
      (capGet caps 1).isSome = true ∧ (capGet caps 2).isSome = true) ∧
    (∀ caps, grab_all log [javaPat1] = some caps →
      (capGet caps 1).isSome = true ∧ (capGet caps 2).isSome = true) ∧
    (∀ caps, grab_all log [javaPat2] = some caps →
      (capGet caps 1).isSome = true ∧ (capGet caps 2).isSome = true) :=
  ⟨check_checks_eq log ctx,
   fun _ h => ⟨grab_all_group_isSome 1 h (by decide), grab_all_group_isSome 2 h (by decide)⟩,
   fun _ h => ⟨grab_all_group_isSome 1 h (by decide), grab_all_group_isSome 2 h (by decide)⟩,
   fun _ h => ⟨grab_all_group_isSome 1 h (by decide), grab_all_group_isSome 2 h (by decide)⟩,
   fun _ h => ⟨grab_all_group_isSome 1 h (by decide), grab_all_group_isSome 2 h (by decide)⟩,
   fun _ h => ⟨grab_all_group_isSome 1 h (by decide), grab_all_group_isSome 2 h (by decide)⟩⟩

theorem c1_witness :
    check_checks logAmendC2 ctxU = Except.ok (aggregate logAmendC2 ctxU) ∧
    ((capGet [(1, ("Foo").data), (2, ("Bar Lib").data)] 1).isSome = true ∧
     (capGet [(1, ("Foo").data), (2, ("Bar Lib").data)] 2).isSome = true) :=
  ⟨(c1_no_crash_every_rule_runs logAmendC2 ctxU).1,
   (c1_no_crash_every_rule_runs logAmendC2 ctxU).2.2.1
     [(1, ("Foo").data), (2, ("Bar Lib").data)] (by decide)⟩

/-- C2 counterexample: on the spec's verbatim scenario input (with unknown
launcher and empty known-mods) the aggregator returns the empty report
list, not exactly one "Missing dependency" report: every alternative of the
dependency rule expects a version token between the parenthesised mod id
and `requires`, which the spec's input lacks. -/
theorem c2_counterexample :
    listSub (("Mod 'Foo' (foo) requires any version of Bar Lib, which is missing!").data)
      (logSpecC2.data) = true ∧
    check_checks logSpecC2 ctxU = Except.ok [] := by decide

/-- C2 (amended): for every log on which the dependency rule's patterns
match with captures `Foo` and `Bar Lib` (as they do when the log carries
the loader's actual wording, with a version token before `requires`), on
which no other rule's pattern matches, and for every context with unknown
launcher and empty known-mods, the aggregator returns exactly one report:
title "Missing dependency", severity High, and a description mentioning
both `Foo` and `Bar Lib`. -/
theorem c2_amended_one_dependency_report (log : String) (ctx : EnvironmentContext)
    (hl : ctx.launcher = none) (hm : ctx.known_mods = [])
    (hdep : grab_all log [depPat1, depPat2, depPat3] =
      some [(1, ("Foo").data), (2, ("Bar Lib").data)])
    (h1 : grab_all log [crashReportPat] = none)
    (h2 : grab_all log [cgPat1, cgPat2] = none)
    (h3 : grab log [cgPat3] = none)
    (h4 : grab log [cgPat4] = none)
    (h5 : grab_all log [javaPat1] = none)
    (h6 : grab_all log [javaPat2] = none)
    (h7 : grab log [mfPat] = none)
    (h8 : grab log [optiPat1, optiPat2] = none)
    (h9 : grab log [indiumPat] = none) :
    check_checks log ctx = Except.ok
      [{ title := "Missing dependency",
         description := depDesc (("Foo").data) (("Bar Lib").data),
         severity := Severity.High }] ∧
    listSub (("Foo").data) ((depDesc (("Foo").data) (("Bar Lib").data)).data) = true ∧
    listSub (("Bar Lib").data) ((depDesc (("Foo").data) (("Bar Lib").data)).data) = true := by
  refine ⟨?_, by decide, by decide⟩
  have e1 := crash_report_analysis_none ctx h1
  have e2 : dependency_generic log ctx = Except.ok
      (some { title := "Missing dependency",
              description := depDesc (("Foo").data) (("Bar Lib").data),
              severity := Severity.High }) := by
    simp only [dependency_generic, hdep]
    rfl
  have e3 := crash_generic_none ctx h2 h3 h4
  have e4 := java_none ctx h5 h6
  have e5 := missing_field_none ctx h7
  have e6 : polymc log ctx = Except.ok none := polymc_none log (by simp [hl])
  have e7 : optifabric log ctx = Except.ok none := optifabric_none (by simp [hm]) h8
  have e8 : bclib log ctx = Except.ok none := bclib_none log (by simp [hm])
  have e9 := indium_none ctx h9
  rw [check_checks_eq]
  simp only [aggregate, checksList, List.filterMap_cons, List.filterMap_nil,
    ruleOpt_of_ok e1, ruleOpt_of_ok e2, ruleOpt_of_ok e3, ruleOpt_of_ok e4,
    ruleOpt_of_ok e5, ruleOpt_of_ok e6, ruleOpt_of_ok e7, ruleOpt_of_ok e8,
    ruleOpt_of_ok e9]

theorem c2_witness :
    check_checks logAmendC2 ctxU = Except.ok
      [{ title := "Missing dependency",
         description := depDesc (("Foo").data) (("Bar Lib").data),
         severity := Severity.High }] ∧
    listSub (("Foo").data) ((depDesc (("Foo").data) (("Bar Lib").data)).data) = true ∧
    listSub (("Bar Lib").data) ((depDesc (("Foo").data) (("Bar Lib").data)).data) = true :=
  c2_amended_one_dependency_report logAmendC2 ctxU (by decide) (by decide) (by decide)
    (by decide) (by decide) (by decide) (by decide) (by decide) (by decide) (by decide)
    (by decide) (by decide)

/-- C3 counterexample: the `optifabric` rule returns a report on the empty
text (none of its patterns match any text position) for a context whose
known-mods mapping holds `optifabric`, so "no pattern match implies no
report" fails for context-consulting rules. -/
theorem c3_counterexample :
    grab ("") [optiPat1, optiPat2] = none ∧
    optifabric ("") ctxOptifabric ≠ Except.ok none := by decide

/-- C3 (amended): for every rule of the catalogue, every text on which none
of the rule's patterns match and every context on which the rule's
context-based trigger is also absent (launcher other than PolyMC for
`polymc`; known-mods without the respective id for `optifabric` and
`bclib`), the rule returns no report. -/
theorem c3_amended_no_match_no_report (log : String) (ctx : EnvironmentContext) :
    (grab_all log [crashReportPat] = none →
      crash_report_analysis log ctx = Except.ok none) ∧
    (grab_all log [depPat1, depPat2, depPat3] = none →
      dependency_generic log ctx = Except.ok none) ∧
    (grab_all log [cgPat1, cgPat2] = none → grab log [cgPat3] = none →
      grab log [cgPat4] = none → crash_generic log ctx = Except.ok none) ∧
    (grab_all log [javaPat1] = none → grab_all log [javaPat2] = none →
      java log ctx = Except.ok none) ∧
    (grab log [mfPat] = none → missing_field log ctx = Except.ok none) ∧
    (ctx.launcher ≠ some Launcher.PolyMC → polymc log ctx = Except.ok none) ∧
    ((ctx.known_mods.find? (fun m => m.1.id == "optifabric")) = none →
      grab log [optiPat1, optiPat2] = none → optifabric log ctx = Except.ok none) ∧
    ((ctx.known_mods.find? (fun m => m.1.id == "bclib")) = none →
      bclib log ctx = Except.ok none) ∧
    (grab log [indiumPat] = none → indium log ctx = Except.ok none) :=
  ⟨crash_report_analysis_none ctx, dependency_generic_none ctx,
   crash_generic_none ctx, java_none ctx, missing_field_none ctx,
   polymc_none log, fun ha hb => optifabric_none ha hb, bclib_none log,
   indium_none ctx⟩

theorem c3_witness :
    crash_report_analysis ("hello") ctxU = Except.ok none ∧
    dependency_generic ("hello") ctxU = Except.ok none ∧
    crash_generic ("hello") ctxU = Except.ok none ∧
    java ("hello") ctxU = Except.ok none ∧
    missing_field ("hello") ctxU = Except.ok none ∧
    polymc ("hello") ctxU = Except.ok none ∧
    optifabric ("hello") ctxU = Except.ok none ∧
    bclib ("hello") ctxU = Except.ok none ∧
    indium ("hello") ctxU = Except.ok none :=
  ⟨(c3_amended_no_match_no_report ("hello") ctxU).1 (by decide),
   (c3_amended_no_match_no_report ("hello") ctxU).2.1 (by decide),
   (c3_amended_no_match_no_report ("hello") ctxU).2.2.1 (by decide) (by decide) (by decide),
   (c3_amended_no_match_no_report ("hello") ctxU).2.2.2.1 (by decide) (by decide),
   (c3_amended_no_match_no_report ("hello") ctxU).2.2.2.2.1 (by decide),
   (c3_amended_no_match_no_report ("hello") ctxU).2.2.2.2.2.1 (by decide),
   (c3_amended_no_match_no_report ("hello") ctxU).2.2.2.2.2.2.1 (by decide) (by decide),
   (c3_amended_no_match_no_report ("hello") ctxU).2.2.2.2.2.2.2.1 (by decide),
   (c3_amended_no_match_no_report ("hello") ctxU).2.2.2.2.2.2.2.2 (by decide)⟩

/-- C4: for every text and context the aggregator's output is exactly the
concatenation, in catalogue declaration order, of each rule's optional
report: every rule contributes exactly its own slot, no reordering, no
suppression, no deduplication, independently of which rules matched. -/
theorem c4_declaration_order (log : String) (ctx : EnvironmentContext) :
    check_checks log ctx = Except.ok
      ((ruleOpt crash_report_analysis log ctx).toList ++
       (ruleOpt dependency_generic log ctx).toList ++
       (ruleOpt crash_generic log ctx).toList ++
       (ruleOpt java log ctx).toList ++
       (ruleOpt missing_field log ctx).toList ++
       (ruleOpt polymc log ctx).toList ++
       (ruleOpt optifabric log ctx).toList ++
       (ruleOpt bclib log ctx).toList ++
       (ruleOpt indium log ctx).toList) := by
  rw [check_checks_eq]
  simp only [aggregate, checksList, filterMap_cons_toList, List.filterMap_nil,
    List.append_nil, List.append_assoc]

/-- C5: the aggregator is deterministic: two evaluations of the same
(text, context) pair yield identical report lists, of the same length and
with identical title, description and severity at every position. -/
theorem c5_deterministic (log : String) (ctx : EnvironmentContext)
    (l₁ l₂ : List CheckReport)
    (h₁ : check_checks log ctx = Except.ok l₁)
    (h₂ : check_checks log ctx = Except.ok l₂) :
    l₁.length = l₂.length ∧
    ∀ i (hi₁ : i < l₁.length) (hi₂ : i < l₂.length),
      (l₁.get ⟨i, hi₁⟩).title = (l₂.get ⟨i, hi₂⟩).title ∧
      (l₁.get ⟨i, hi₁⟩).description = (l₂.get ⟨i, hi₂⟩).description ∧
      (l₁.get ⟨i, hi₁⟩).severity = (l₂.get ⟨i, hi₂⟩).severity := by
  have h : l₁ = l₂ := Except.ok.inj (h₁.symm.trans h₂)
  subst h
  exact ⟨rfl, fun i hi₁ hi₂ => ⟨rfl, rfl, rfl⟩⟩

theorem c5_witness :
    ([] : List CheckReport).length = ([] : List CheckReport).length ∧
    ∀ i (hi₁ : i < ([] : List CheckReport).length)
      (hi₂ : i < ([] : List CheckReport).length),
      ((([] : List CheckReport)).get ⟨i, hi₁⟩).title =
        ((([] : List CheckReport)).get ⟨i, hi₂⟩).title ∧
      ((([] : List CheckReport)).get ⟨i, hi₁⟩).description =
        ((([] : List CheckReport)).get ⟨i, hi₂⟩).description ∧
      ((([] : List CheckReport)).get ⟨i, hi₁⟩).severity =
        ((([] : List CheckReport)).get ⟨i, hi₂⟩).severity :=
  c5_deterministic ("") ctxU [] [] (by decide) (by decide)

/-- C6 counterexample: a text containing the 61.0/52.0
`UnsupportedClassVersionError` line together with a replace-suggestion line
(Java 5 present, 9 required) makes the `java` rule report versions 9 and 5
instead: the rule's first sub-pattern wins, so the claim does not hold for
every text containing the `UnsupportedClassVersionError` line. -/
theorem c6_counterexample :
    listSub (logUcve.data) (logJavaBoth.data) = true ∧
    java logJavaBoth ctxU = Except.ok (some
      { title := "Incorrect Java version",
        description := javaVersionDesc ("9") ("5"),
        severity := Severity.High }) ∧
    listSub (("17").data) ((javaVersionDesc ("9") ("5")).data) = false := by decide

/-- C6 (amended): for every text on which the `java` rule's first
(replace-suggestion) pattern does not match and whose leftmost
`UnsupportedClassVersionError` match captures class-file versions 61.0
(required) and 52.0 (present), the rule produces one report naming the
required Java version "17" and the present Java version "8", with severity
High. -/
theorem c6_amended_java_17_8 (log : String) (ctx : EnvironmentContext) (caps : Caps)
    (h1 : grab_all log [javaPat1] = none)
    (h2 : grab_all log [javaPat2] = some caps)
    (hc1 : capGet caps 1 = some (("61.0").data))
    (hc2 : capGet caps 2 = some (("52.0").data)) :
    java log ctx = Except.ok (some
      { title := "Incorrect Java version",
        description := javaVersionDesc ("17") ("8"),
        severity := Severity.High }) := by
  simp only [java, h1, h2, hc1, hc2]
  rfl

theorem c6_witness :
    java logUcve ctxU = Except.ok (some
      { title := "Incorrect Java version",
        description := javaVersionDesc ("17") ("8"),
        severity := Severity.High }) :=
  c6_amended_java_17_8 logUcve ctxU
    [(1, ("61.0").data), (2, ("52.0").data)]
    (by decide) (by decide) (by decide) (by decide)

/-- C7: the Java class-file-version translation is total and injective over
its declared numeric domain, and on any match of the
`UnsupportedClassVersionError` pattern whose captured version tokens fall
outside that domain the `java` rule still returns its report, with the
generic non-numeric description substituted and the severity (High)
kept. -/
theorem c7_translation_total_injective_graceful :
    (∀ s ∈ javaDomain, (match_java_classfile_version s).isSome = true) ∧
    (∀ s ∈ javaDomain, ∀ t ∈ javaDomain,
      match_java_classfile_version s = match_java_classfile_version t → s = t) ∧
    (∀ (log : String) (ctx : EnvironmentContext) (caps : Caps) (g1 g2 : List Char),
      grab_all log [javaPat1] = none →
      grab_all log [javaPat2] = some caps →
      capGet caps 1 = some g1 → capGet caps 2 = some g2 →
      (match_java_classfile_version (String.mk g1) = none ∨
       match_java_classfile_version (String.mk g2) = none) →
      java log ctx = Except.ok (some
        { title := "Incorrect Java version",
          description := javaGenericDesc,
          severity := Severity.High })) := by
  refine ⟨by decide, by decide, ?_⟩
  intro log ctx caps g1 g2 h1 h2 hc1 hc2 hmiss
  simp only [java, h1, h2, hc1, hc2]
  rcases hmiss with hm | hm
  · cases hx : match_java_classfile_version (String.mk g2) <;> simp [hm, hx]
  · cases hy : match_java_classfile_version (String.mk g1) <;> simp [hm, hy]

theorem c7_witness :
    (match_java_classfile_version ("61.0")).isSome = true ∧
    ("61.0" : String) = ("61.0" : String) ∧
    java logUcveOddball ctxU = Except.ok (some
      { title := "Incorrect Java version",
        description := javaGenericDesc,
        severity := Severity.High }) :=
  ⟨c7_translation_total_injective_graceful.1 ("61.0") (by decide),
   c7_translation_total_injective_graceful.2.1 ("61.0") (by decide) ("61.0") (by decide) rfl,
   c7_translation_total_injective_graceful.2.2 logUcveOddball ctxU
     [(1, ("99.0").data), (2, ("52.0").data)] (("99.0").data) (("52.0").data)
     (by decide) (by decide) (by decide) (by decide) (Or.inl (by decide))⟩

/-- C8: for every context whose known-mods mapping holds the key `bclib`
and for every text, the aggregator's output contains exactly one report
titled "BCLib detected", and that report has severity Medium, regardless of
the text's content. -/
theorem c8_bclib_always_reports (log : String) (ctx : EnvironmentContext)
    (h : (ctx.known_mods.find? (fun m => m.1.id == "bclib")).isSome = true) :
    ∃ l, check_checks log ctx = Except.ok l ∧
      List.countP (fun r => r.title == "BCLib detected") l = 1 ∧
      bclibReport ∈ l ∧ bclibReport.severity = Severity.Medium :=
  ⟨aggregate log ctx, check_checks_eq log ctx, aggregate_bclib_count h,
   aggregate_bclib_mem h, rfl⟩

theorem c8_witness :
    ∃ l, check_checks ("arbitrary text") ctxBclib = Except.ok l ∧
      List.countP (fun r => r.title == "BCLib detected") l = 1 ∧
      bclibReport ∈ l ∧ bclibReport.severity = Severity.Medium :=
  c8_bclib_always_reports ("arbitrary text") ctxBclib (by decide)

/-- C9: first match wins within one rule: if the alternative pattern with
the lowest declared index matches, the pattern matcher returns precisely
its captures, ignoring all later alternatives; accordingly the dependency
rule's report is built from its first alternative's captures even when the
third alternative also matches, and the crash rule's report is built from
its first sub-check's captures even when its second sub-check's pattern
also matches. -/
theorem c9_first_match_wins :
    (∀ (log : String) (p : List RItem) (ps : List (List RItem)) (caps : Caps),
      searchPat p log.data = some caps → grab_all log (p :: ps) = some caps) ∧
    (∀ (log : String) (ctx : EnvironmentContext) (caps caps' : Caps) (d1 d2 : List Char),
      searchPat depPat1 log.data = some caps →
      searchPat depPat3 log.data = some caps' →
      capGet caps 1 = some d1 → capGet caps 2 = some d2 →
      dependency_generic log ctx = Except.ok (some
        { title := "Missing dependency", description := depDesc d1 d2,
          severity := Severity.High })) ∧
    (∀ (log : String) (ctx : EnvironmentContext) (caps caps' : Caps) (m1 m2 : List Char),
      grab_all log [cgPat1, cgPat2] = some caps →
      searchPat cgPat3 log.data = some caps' →
      capGet caps 1 = some m1 → capGet caps 2 = some m2 →
      crash_generic log ctx = Except.ok (some
        { title := "Mixin inject failed", description := mixinInjectDesc m1 m2,
          severity := Severity.High })) := by
  refine ⟨?_, ?_, ?_⟩
  · intro log p ps caps h
    simp [grab_all, firstSome, h]
  · intro log ctx caps caps' d1 d2 h1 _h3 hc1 hc2
    have hga : grab_all log [depPat1, depPat2, depPat3] = some caps := by
      simp [grab_all, firstSome, h1]
    simp only [dependency_generic, hga, hc1, hc2]
  · intro log ctx caps caps' m1 m2 hga _h3 hc1 hc2
    simp only [crash_generic, hga, hc1, hc2]

theorem c9_witness :
    grab_all logDepBoth [depPat1, depPat2, depPat3] =
      some [(1, ("Alpha").data), (2, ("AlphaLib").data)] ∧
    dependency_generic logDepBoth ctxU = Except.ok (some
      { title := "Missing dependency",
        description := depDesc (("Alpha").data) (("AlphaLib").data),
        severity := Severity.High }) ∧
    crash_generic logCgBoth ctxU = Except.ok (some
      { title := "Mixin inject failed",
        description := mixinInjectDesc (("MinecraftMixin").data) (("examplemod").data),
        severity := Severity.High }) :=
  ⟨c9_first_match_wins.1 logDepBoth depPat1 [depPat2, depPat3]
     [(1, ("Alpha").data), (2, ("AlphaLib").data)] (by decide),
   c9_first_match_wins.2.1 logDepBoth ctxU
     [(1, ("Alpha").data), (2, ("AlphaLib").data)]
     [(1, ("Beta").data), (2, ("BetaLib").data)]
     (("Alpha").data) (("AlphaLib").data)
     (by decide) (by decide) (by decide) (by decide),
   c9_first_match_wins.2.2 logCgBoth ctxU
     [(1, ("MinecraftMixin").data), (2, ("examplemod").data)]
     [(1, ("othermod").data)]
     (("MinecraftMixin").data) (("examplemod").data)
     (by decide) (by decide) (by decide) (by decide)⟩

/-- C10: for every text and context the aggregator's output holds at most 9
reports (one per catalogue rule) and no two of its reports share the same
title; the eleven possible title strings across all rules are pairwise
distinct. -/
theorem c10_at_most_nine_distinct_titles (log : String) (ctx : EnvironmentContext) :
    ∃ l, check_checks log ctx = Except.ok l ∧ l.length ≤ 9 ∧
      l.Pairwise (fun r r' => r.title ≠ r'.title) ∧
      allTitles.Nodup ∧ allTitles.length = 11 :=
  ⟨aggregate log ctx, check_checks_eq log ctx, aggregate_length_le log ctx,
   aggregate_titles_pairwise log ctx, by decide, rfl⟩
